import Mathlib

/-!
Verification of the MaidSafe-Routing message-routing core against its
natural-language specification.  The Lean definitions below are a shallow
embedding of the C++ sources under src/src/maidsafe/routing/
(message_handler.cc, network_utils.cc, group_change_handler.cc).
Node identifiers are modelled as natural numbers (XOR distance is Nat.xor);
protobuf optional fields are modelled as Option values, with none standing
for an unset (empty-string) field.
-/

namespace MaidSafeRouting

/-- Protocol constants (parameters.cc is not part of the examined slice;
the spec fixes them abstractly: `G = node_group_size`, `C =
closest_nodes_size`, `H = max_route_history`, plus the initial
`hops_to_live`). -/
structure Params where
  node_group_size : Nat
  closest_nodes_size : Nat
  max_route_history : Nat
  hops_to_live : Nat
  caching : Bool
deriving Repr, DecidableEq

/-- NodeInfo as used by the routing slice: the peer's id, its
transport-level connection id and its rank. -/
structure NodeInfo where
  node_id : Nat
  connection_id : Nat
  rank : Nat
deriving Repr, DecidableEq

/-- The wire message (protobuf::Message) restricted to the fields the
routing slice reads or writes.  `none` models an unset optional field;
`source_id = none` models the empty source id of a relay message. -/
structure Message where
  id : Option Nat
  msgType : Nat
  source_id : Option Nat
  destination_id : Option Nat
  last_id : Option Nat
  relay_id : Option Nat
  relay_connection_id : Option Nat
  request : Bool
  direct : Bool
  visited : Option Bool
  client_node : Bool
  routing_message : Bool
  cacheable : Bool
  replication : Nat
  hops_to_live : Nat
  route_history : List Nat
  group_claim : Option Nat
  data : List String
deriving Repr, DecidableEq

/-- Outbound effects of a message-handler run, in program order. -/
inductive Action where
  | sendToDirect (m : Message) (peer_node_id : Nat) (peer_connection_id : Nat)
  | sendToClosest (m : Message)
  | localDispatch (m : Message)
deriving Repr, DecidableEq

/-- Sorting of routing-table entries by XOR distance to a target
(`RT` is kept sorted by XOR distance; GetClosestNodes sorts towards the
requested target). -/
def sortByDist (target : Nat) (rt : List NodeInfo) : List NodeInfo :=
  List.insertionSort
    (fun a b => Nat.xor a.node_id target ≤ Nat.xor b.node_id target) rt

/-- Modelled from the spec: RoutingTable::GetClosestNodes (routing_table.cc
is not under src/) — "returns up to n NodeInfos from RT ordered by XOR to
target"; the message handler consumes the resulting node ids. -/
def getClosestNodes (rt : List NodeInfo) (target : Nat) (n : Nat) : List Nat :=
  ((sortByDist target rt).map NodeInfo.node_id).take n

/-- Modelled from the spec: RoutingTable::GetClosestNodeInfo (routing_table.cc
is not under src/) — the up-to-n RT entries closest to the target. -/
def getClosestNodeInfo (rt : List NodeInfo) (target : Nat) (n : Nat) : List NodeInfo :=
  (sortByDist target rt).take n

/-- Modelled from the spec: RoutingTable::GetNodeInfo (routing_table.cc is
not under src/) — looks up the RT entry with the given node id. -/
def getNodeInfo (rt : List NodeInfo) (i : Nat) : Option NodeInfo :=
  rt.find? (fun n => n.node_id == i)

/-- Modelled from the spec: RoutingTable::IsConnected / NonRoutingTable::
IsConnected (neither table's source is under src/) — membership by node id. -/
def isConnected (t : List NodeInfo) (i : Nat) : Bool :=
  t.any (fun n => n.node_id == i)

/-- Modelled from the spec: NonRoutingTable::GetNodesInfo (non_routing_table.cc
is not under src/) — the connected clients registered under the given id. -/
def nrtGetNodesInfo (nrt : List NodeInfo) (i : Nat) : List NodeInfo :=
  nrt.filter (fun n => n.node_id == i)

/-- The per-node environment a handler runs in.  The routing table and the
non-routing table are lists of NodeInfos.  The group-matrix-backed queries
IsThisNodeClosestTo, IsThisNodeInRange and IsThisNodeGroupLeader live in
routing_table.cc / group_matrix.cc, which are not part of the examined
slice; they are abstracted as oracle functions of the environment
(`groupLeader t = none` means this node is the group leader for `t`,
`some leader` names the closer connected peer). -/
structure RtEnv where
  selfId : Nat
  rt : List NodeInfo
  nrt : List NodeInfo
  clientMode : Bool
  closestTo : Nat → Bool → Bool
  inRange : Nat → Nat → Bool
  groupLeader : Nat → Option NodeInfo

/-! ### network_utils.cc : AdjustRouteHistory (lines 307–321) -/

/-- NetworkUtils::AdjustRouteHistory: if this node's id is not in the
message's route history, append it; if the length then exceeds
`max_route_history`, drop the oldest (first) entry. -/
def adjustRouteHistory (p : Params) (selfId : Nat) (m : Message) : Message :=
  if selfId ∈ m.route_history then m
  else
    let rh := m.route_history ++ [selfId]
    if p.max_route_history < rh.length then { m with route_history := rh.drop 1 }
    else { m with route_history := rh }

/-! ### network_utils.cc : RecursiveSendOn exclusion list (lines 255–261) -/

/-- The `route_history` vector RecursiveSendOn builds and passes to
RT.GetClosestNode as the exclusion list: all entries but the last when the
history holds more than one entry; the single entry when it holds exactly
one and that entry is not this node's identity; empty otherwise. -/
def recursiveSendOnExclude (selfId : Nat) (rh : List Nat) : List Nat :=
  if 1 < rh.length then rh.dropLast
  else if rh.length = 1 ∧ rh.headD 0 ≠ selfId then [rh.headD 0]
  else []

/-- The exclusion set claim C2 asserts: every id of the route history other
than self is excluded, and self is never excluded. -/
def c2ClaimAt (selfId : Nat) (rh : List Nat) : Prop :=
  (∀ x ∈ rh, x ≠ selfId → x ∈ recursiveSendOnExclude selfId rh) ∧
  selfId ∉ recursiveSendOnExclude selfId rh

/-! ### network_utils.cc : SendToClosestNode (lines 164–200) -/

/-- The dispatch decision SendToClosestNode takes. -/
inductive SendOutcome where
  | nrtFanOut (peers : List Nat)
  | recursive
  | dropNoEndpoint
  | relayDirect (m : Message) (peer : Nat)
  | dropNoRelay
deriving Repr, DecidableEq

/-- NetworkUtils::SendToClosestNode.  A message carrying a destination id is
fanned out to matching non-routing-table clients when direct, recursively
forwarded when the routing table is non-empty, and otherwise dropped ("No
endpoint to send to").  Only a message with no destination id reaches the
relay branch: a response bearing a relay id has a copy sent straight to the
relay id with the destination overwritten; anything else is dropped. -/
def sendToClosestNode (rt nrt : List NodeInfo) (msg : Message) : SendOutcome :=
  match msg.destination_id with
  | some d =>
    let nodes := nrtGetNodesInfo nrt d
    if !nodes.isEmpty && msg.direct then SendOutcome.nrtFanOut (nodes.map NodeInfo.node_id)
    else if 0 < rt.length then SendOutcome.recursive
    else SendOutcome.dropNoEndpoint
  | none =>
    match msg.relay_id with
    | some r =>
      if msg.request = false then
        SendOutcome.relayDirect { msg with destination_id := some r } r
      else SendOutcome.dropNoRelay
    | none => SendOutcome.dropNoRelay

/-- What claim C6 asserts of a message whose destination matches no
non-routing-table client (under the direct rule) while the routing table is
empty: a response bearing a relay id is re-sent with its destination
overwritten — in particular it is not dropped. -/
def c6ClaimAt (rt nrt : List NodeInfo) (msg : Message) : Prop :=
  (nrtGetNodesInfo nrt (msg.destination_id.getD 0) = [] ∨ msg.direct = false) →
  rt = [] →
  msg.request = false →
  msg.relay_id.isSome →
  sendToClosestNode rt nrt msg ≠ SendOutcome.dropNoEndpoint

/-! ### message_handler.cc : HandleNodeLevelMessageForThisNode reply functor
(lines 104–147) -/

/-- The response the reply capability of
MessageHandler::HandleNodeLevelMessageForThisNode synthesizes: `none` when
the reply string is empty (the functor logs and returns without building a
message); otherwise the message it constructs field by field. -/
def buildReply (selfId : Nat) (p : Params) (message : Message)
    (reply : String) : Option Message :=
  if reply = "" then none
  else some {
    id := message.id
    msgType := message.msgType
    source_id := some selfId
    destination_id := message.source_id
    last_id := some selfId
    relay_id := message.relay_id
    relay_connection_id := message.relay_connection_id
    request := false
    direct := true
    visited := none
    client_node := message.client_node
    routing_message := message.routing_message
    cacheable := false
    replication := 0
    hops_to_live := p.hops_to_live
    route_history := []
    group_claim := none
    data := [reply] }

/-! ### message_handler.cc : HandleDirectMessageAsClosestNode (lines 182–212) -/

/-- MessageHandler::HandleDirectMessageAsClosestNode.  When this node is
strictly closest to the destination: forward if the destination is
connected in the routing table or the non-routing table; otherwise, if not
yet visited, mark visited and forward once more; otherwise drop.  When not
closest, forward. -/
def handleDirectMessageAsClosestNode (env : RtEnv) (msg : Message) : List Action :=
  let d := msg.destination_id.getD 0
  if env.closestTo d false then
    if isConnected env.rt d || isConnected env.nrt d then
      [Action.sendToClosest msg]
    else if !(msg.visited == some true) then
      [Action.sendToClosest { msg with visited := some true }]
    else []
  else [Action.sendToClosest msg]

/-! ### message_handler.cc : HandleGroupMessageAsClosestNode (lines 214–286) -/

/-- The per-peer replication sends of the fan-out loop: for each chosen
close node id, the message (already marked direct) has its destination
rewritten to that id and, when the routing table resolves the id, is sent
directly to that peer's connection. -/
def fanoutSends (rt : List NodeInfo) (m : Message) (close : List Nat) : List Action :=
  close.filterMap (fun i =>
    (getNodeInfo rt i).map (fun node =>
      Action.sendToDirect { m with destination_id := some i }
        node.node_id node.connection_id))

/-- MessageHandler::HandleGroupMessageAsClosestNode.  Pass on when neither
closest nor holding the exact-id peer; the visited re-forward branch;
direct send to the group leader when a connected peer is closer; otherwise
the replication fan-out: validate replication, mark direct, rewrite the
destination per replicant and send, then restore the destination to self
and dispatch locally. -/
def handleGroupMessageAsClosestNode (env : RtEnv) (p : Params)
    (msg : Message) : List Action :=
  let d := msg.destination_id.getD 0
  let have_node := isConnected env.rt d
  if !(env.closestTo d (!msg.direct)) && !have_node then
    [Action.sendToClosest msg]
  else if msg.visited == some false
          && decide (p.closest_nodes_size < env.rt.length)
          && !(env.inRange d p.closest_nodes_size) then
    [Action.sendToClosest { msg with visited := some true }]
  else
    match env.groupLeader d with
    | some leader => [Action.sendToDirect msg leader.node_id leader.connection_id]
    | none =>
      let repl := msg.replication
      if repl < 1 || p.node_group_size < repl then []
      else
        let repl2 := repl - 1 + (if have_node then 1 else 0)
        let m1 := { msg with direct := true }
        let close0 := getClosestNodes env.rt d repl2
        let close := if have_node then close0.drop 1 else close0
        fanoutSends env.rt m1 close ++
          [Action.localDispatch { m1 with destination_id := some env.selfId }]

/-! ### message_handler.cc : HandleMessage (lines 301–355) -/

/-- The classification branch HandleMessage dispatches to after the
validity check and the hops-to-live decrement. -/
inductive Branch where
  | cacheLookup
  | groupToSelf
  | clientMessage
  | relayRequest
  | strayDrop
  | forThisNode
  | relayResponseRouting
  | nonRoutingNodes
  | asClosest
  | asFar
deriving Repr, DecidableEq

/-- The result of MessageHandler::HandleMessage: dropped at the validation
boundary, or classified (recording whether a cacheable-response copy was
stored on the way) together with the message state every guard examined. -/
inductive HMResult where
  | dropInvalid
  | classified (storedCacheCopy : Bool) (b : Branch) (m : Message)
deriving Repr, DecidableEq

/-- Modelled from the spec: utils.cc ValidateMessage is not under src/;
spec §4.6 row 1 drops a message that is invalid or whose hops_to_live is 0,
and the assertion at message_handler.cc:304 names exhausted hops as a
validation failure.  `wireValid` abstracts well-formedness of the wire
fields. -/
def validateMessage (wireValid : Bool) (m : Message) : Bool :=
  wireValid && !(m.hops_to_live == 0)

/-- Modelled from the spec: utils.cc IsNodeLevelMessage is not under src/ —
a node-level (application) message is one that is not a routing control
message. -/
def isNodeLevelMessage (m : Message) : Bool :=
  !m.routing_message

/-- MessageHandler::IsCacheableRequest. -/
def isCacheableRequest (env : RtEnv) (p : Params) (m : Message) : Bool :=
  isNodeLevelMessage m && p.caching && !env.clientMode && m.cacheable && m.request

/-- MessageHandler::IsCacheableResponse. -/
def isCacheableResponse (env : RtEnv) (p : Params) (m : Message) : Bool :=
  isNodeLevelMessage m && p.caching && !env.clientMode && m.cacheable && !m.request

/-- MessageHandler::IsGroupMessageRequestToSelfId. -/
def isGroupMessageRequestToSelfId (env : RtEnv) (m : Message) : Bool :=
  m.source_id == some env.selfId && m.destination_id == some env.selfId
    && m.request && !m.direct

/-- MessageHandler::IsRelayResponseForThisNode. -/
def isRelayResponseForThisNode (env : RtEnv) (m : Message) : Bool :=
  m.routing_message && m.relay_id.isSome && m.relay_id == some env.selfId

/-- The guard chain of HandleMessage from the group-to-self check down
(message_handler.cc lines 316–354), in source order. -/
def classifyRest (env : RtEnv) (p : Params) (m : Message) : Branch :=
  if isGroupMessageRequestToSelfId env m then Branch.groupToSelf
  else if env.clientMode then Branch.clientMessage
  else if m.source_id == none then Branch.relayRequest
  else if m.source_id == some 0 then Branch.strayDrop
  else if m.destination_id == some env.selfId then Branch.forThisNode
  else if isRelayResponseForThisNode env m then Branch.relayResponseRouting
  else if isConnected env.nrt (m.destination_id.getD 0) && m.direct then
    Branch.nonRoutingNodes
  else if env.inRange (m.destination_id.getD 0) p.node_group_size
          || (env.closestTo (m.destination_id.getD 0) (!m.direct)
              && m.visited == some true) then Branch.asClosest
  else Branch.asFar

/-- MessageHandler::HandleMessage: drop on validation failure, otherwise
decrement hops_to_live and run the classification guards on the
decremented message. -/
def handleMessage (env : RtEnv) (p : Params) (wireValid : Bool)
    (m : Message) : HMResult :=
  if validateMessage wireValid m then
    let m1 := { m with hops_to_live := m.hops_to_live - 1 }
    if !env.clientMode && isCacheableRequest env p m1 then
      HMResult.classified false Branch.cacheLookup m1
    else
      HMResult.classified (!env.clientMode && isCacheableResponse env p m1)
        (classifyRest env p m1) m1
  else HMResult.dropInvalid

/-! ### group_change_handler.cc : Unsubscribe (lines 102–112) -/

/-- `vector::erase` at a single position: the element at index `i` is
removed when `i` is in range; `none` models the undefined behaviour of
erasing at the end iterator (the overload taking one iterator requires a
valid, dereferenceable position). -/
def cppEraseAt (l : List α) (i : Nat) : Option (List α) :=
  if i < l.length then some (l.eraseIdx i) else none

/-- GroupChangeHandler::Unsubscribe as written: when the subscribers list
is non-empty it calls `erase(remove_if(begin, end, matches))` — note the
missing second argument to erase.  `remove_if` compacts the non-matching
elements to the front and returns the new logical end; the positions from
there to the end keep leftover values (modelled here as the original tail,
which is only consulted when more than one entry matches).  `erase` then
removes the single element at that returned position; when nothing
matches, the position is the end iterator and the erase is undefined
behaviour, modelled as `none`. -/
def cppUnsubscribe (subs : List NodeInfo) (node_id : Nat) : Option (List NodeInfo) :=
  if subs.isEmpty then some subs
  else
    let kept := subs.filter (fun n => !(n.node_id == node_id))
    cppEraseAt (kept ++ subs.drop kept.length) kept.length

/-! ### group_change_handler.cc : Subscribe (lines 114–146) -/

/-- Outcome of GroupChangeHandler::Subscribe: the subscribers list after
the call and, when a ClosestNodesUpdate RPC is sent to the requester, the
target node id, connection id and the close-nodes payload of that single
send. -/
structure SubscribeResult where
  subscribers : List NodeInfo
  sentUpdate : Option (Nat × Nat × List NodeInfo)
deriving Repr, DecidableEq

/-- GroupChangeHandler::Subscribe: fetch the `closest_nodes_size` RT
entries closest to self and return early when fewer are available; when
the peer resolves in the routing table, append it to the subscribers list
unless already present, and send it one ClosestNodesUpdate carrying the
fetched close nodes; when the peer does not resolve, change nothing and
send nothing. -/
def subscribe (p : Params) (rt : List NodeInfo) (selfId : Nat)
    (subs : List NodeInfo) (node_id : Nat) : SubscribeResult :=
  let connected := getClosestNodeInfo rt selfId p.closest_nodes_size
  if connected.length < p.closest_nodes_size then ⟨subs, none⟩
  else
    match getNodeInfo rt node_id with
    | some ni =>
      let subs2 := if subs.any (fun n => n.node_id == node_id) then subs
                   else subs ++ [ni]
      ⟨subs2, some (ni.node_id, ni.connection_id, connected)⟩
    | none => ⟨subs, none⟩

/-- What claim C7 asserts of a subscribe request from a peer present in the
routing table: the peer ends up in the subscribers list and exactly one
initial ClosestNodesUpdate is sent to it. -/
def c7ClaimAt (p : Params) (rt : List NodeInfo) (selfId : Nat)
    (subs : List NodeInfo) (node_id : Nat) : Prop :=
  (∃ x ∈ rt, x.node_id = node_id) →
    ((subscribe p rt selfId subs node_id).subscribers.any
        (fun n => n.node_id == node_id) = true ∧
      (subscribe p rt selfId subs node_id).sentUpdate.isSome = true)

/-! ### group_change_handler.cc : ClosestNodesUpdate (lines 44–74) -/

/-- One entry of the ClosestNodesUpdate wire payload (protobuf BasicNodeInfo:
a node id and a rank). -/
structure BasicInfo where
  node_id : Nat
  rank : Nat
deriving Repr, DecidableEq

/-- The parsed ClosestNodesUpdate payload: the reporting peer's id and its
close-nodes list.  Id 0 models an empty/invalid wire id. -/
structure ClosestNodesUpdatePayload where
  node : Nat
  nodes_info : List BasicInfo
deriving Repr, DecidableEq

/-- Modelled from the spec: utils.cc CheckId is not under src/ — a wire id
is valid when non-empty and of the correct size; id 0 models an
empty/invalid id. -/
def checkId (i : Nat) : Bool := i != 0

/-- The decision GroupChangeHandler::ClosestNodesUpdate reaches. -/
inductive CNUResult where
  | notForThisNode
  | invalidPeer
  | updateGroupChange (peer : Nat) (close_nodes : List NodeInfo)
deriving Repr, DecidableEq

/-- GroupChangeHandler::ClosestNodesUpdate: reject a message not addressed
to this node; reject an empty or invalid reporting-peer id; otherwise
collect the valid entries of the close-nodes list (node id and rank; the
connection id is left default) and hand them — unconditionally, even when
the collected list is empty — to UpdateGroupChange. -/
def closestNodesUpdate (selfId : Nat) (dest : Option Nat)
    (payload : ClosestNodesUpdatePayload) : CNUResult :=
  if !(dest == some selfId) then CNUResult.notForThisNode
  else if !(checkId payload.node) then CNUResult.invalidPeer
  else
    CNUResult.updateGroupChange payload.node
      (payload.nodes_info.filterMap (fun b =>
        if checkId b.node_id then some ⟨b.node_id, 0, b.rank⟩ else none))

/-- Modelled from the spec: GroupMatrix::UpdateFromConnectedPeer
(group_matrix.cc is not under src/) — "replaces the row keyed by peer_id
with the supplied close-nodes".  The matrix is an association list from
peer id to that peer's reported close-group. -/
def gmSetRow (gm : List (Nat × List NodeInfo)) (peer : Nat)
    (close : List NodeInfo) : List (Nat × List NodeInfo) :=
  gm.map (fun row => if row.fst = peer then (peer, close) else row)

/-- GroupChangeHandler::UpdateGroupChange restricted to its group-matrix
effect: when the reporting peer is connected in the routing table, its
matrix row is replaced by the reported close-nodes; otherwise the matrix
is untouched. -/
def updateGroupChange (rt : List NodeInfo) (gm : List (Nat × List NodeInfo))
    (peer : Nat) (close : List NodeInfo) : List (Nat × List NodeInfo) :=
  if isConnected rt peer then gmSetRow gm peer close else gm

/-- The group-matrix state after this node processes an inbound
ClosestNodesUpdate message, composing the handler's decision with the
UpdateGroupChange effect. -/
def gmAfterClosestNodesUpdate (selfId : Nat) (rt : List NodeInfo)
    (gm : List (Nat × List NodeInfo)) (dest : Option Nat)
    (payload : ClosestNodesUpdatePayload) : List (Nat × List NodeInfo) :=
  match closestNodesUpdate selfId dest payload with
  | CNUResult.updateGroupChange peer close => updateGroupChange rt gm peer close
  | _ => gm

/-! ## Concrete fixtures used to instantiate the theorems -/

/-- A message with every optional field unset and neutral defaults. -/
def baseMsg : Message where
  id := none
  msgType := 0
  source_id := none
  destination_id := none
  last_id := none
  relay_id := none
  relay_connection_id := none
  request := true
  direct := true
  visited := none
  client_node := false
  routing_message := false
  cacheable := false
  replication := 0
  hops_to_live := 8
  route_history := []
  group_claim := none
  data := []

/-- Protocol constants with the spec's typical values: `G = 4`, `C = 8`,
`H = 2`, initial hops_to_live 9, caching off. -/
def p0 : Params := ⟨4, 8, 2, 9, false⟩

/-- A 1-entry environment whose oracles report this node as closest. -/
def env5 : RtEnv where
  selfId := 0
  rt := [⟨2, 20, 0⟩]
  nrt := []
  clientMode := false
  closestTo := fun _ _ => true
  inRange := fun _ _ => false
  groupLeader := fun _ => none

/-- A 5-peer environment for the group fan-out scenario: this node (id 0)
is group leader for destination 7; peers 5, 4, 3 are the three closest to
7 by XOR. -/
def env1 : RtEnv where
  selfId := 0
  rt := [⟨1, 10, 1⟩, ⟨2, 20, 1⟩, ⟨3, 30, 1⟩, ⟨4, 40, 1⟩, ⟨5, 50, 1⟩]
  nrt := []
  clientMode := false
  closestTo := fun _ _ => true
  inRange := fun _ _ => true
  groupLeader := fun _ => none

/-- Group message to destination 7 with replication 4. -/
def msg1 : Message :=
  { baseMsg with destination_id := some 7, direct := false, replication := 4 }

/-- Request carrying an id, addressed to this node (id 1) from node 7. -/
def msg4 : Message :=
  { baseMsg with destination_id := some 1, source_id := some 7, id := some 42 }

/-- Direct message addressed to the connected peer of `env5`. -/
def msg5 : Message :=
  { baseMsg with destination_id := some 2 }

/-- A response bearing a relay id *and* a destination id — the C6
counterexample input. -/
def msg6 : Message :=
  { baseMsg with destination_id := some 5, relay_id := some 7, request := false }

/-- A response bearing a relay id and no destination id. -/
def msg6b : Message :=
  { baseMsg with relay_id := some 7, request := false }

/-- An ordinary routed message for the classification witness. -/
def msg3 : Message :=
  { baseMsg with hops_to_live := 5, source_id := some 3, destination_id := some 9 }

/-- Message whose route history holds two other hops (length = `H`). -/
def msg9 : Message :=
  { baseMsg with route_history := [1, 2] }

/-- Constants with `C = 2` for the C7 counterexample. -/
def p7 : Params := ⟨4, 2, 3, 9, false⟩

/-- Constants with `C = 1` for the C7 witness. -/
def p7w : Params := ⟨4, 1, 3, 9, false⟩

/-- A routing table holding the single peer 5. -/
def rt7 : List NodeInfo := [⟨5, 50, 0⟩]

/-- A subscribers list holding the single peer 1 — the C10 failing input
(unsubscribing any other id leaves `remove_if` returning the end
iterator). -/
def subsC10 : List NodeInfo := [⟨1, 10, 0⟩]

/-! ## Helper lemmas -/

theorem length_getClosestNodes (rt : List NodeInfo) (d n : Nat)
    (h : n ≤ rt.length) : (getClosestNodes rt d n).length = n := by
  unfold getClosestNodes sortByDist
  rw [List.length_take, List.length_map, List.length_insertionSort]
  omega

theorem getNodeInfo_isSome_of_mem (rt : List NodeInfo) (i : Nat)
    (h : ∃ x ∈ rt, x.node_id = i) : (getNodeInfo rt i).isSome := by
  induction rt with
  | nil => simp at h
  | cons a as ih =>
    rcases h with ⟨x, hx, hxi⟩
    rcases List.mem_cons.mp hx with h1 | h2
    · subst h1
      simp [getNodeInfo, List.find?_cons, hxi]
    · unfold getNodeInfo
      cases hpa : (a.node_id == i) with
      | true => simp [List.find?_cons, hpa]
      | false =>
        simp only [List.find?_cons, hpa]
        exact ih ⟨x, h2, hxi⟩

theorem mem_getClosestNodes (rt : List NodeInfo) (d n i : Nat)
    (h : i ∈ getClosestNodes rt d n) : ∃ x ∈ rt, x.node_id = i := by
  unfold getClosestNodes sortByDist at h
  have h2 := List.take_subset n _ h
  obtain ⟨x, hx, rfl⟩ := List.mem_map.mp h2
  exact ⟨x, (List.mem_insertionSort _).mp hx, rfl⟩

theorem fanoutSends_length (rt : List NodeInfo) (m : Message) (close : List Nat)
    (h : ∀ i ∈ close, (getNodeInfo rt i).isSome) :
    (fanoutSends rt m close).length = close.length := by
  induction close with
  | nil => rfl
  | cons a as ih =>
    have ha := h a (List.mem_cons_self a as)
    obtain ⟨node, hnode⟩ := Option.isSome_iff_exists.mp ha
    unfold fanoutSends at ih ⊢
    simp only [List.filterMap_cons, hnode, Option.map_some', List.length_cons]
    rw [ih (fun i hi => h i (List.mem_cons_of_mem a hi))]

theorem fanoutSends_mem (rt : List NodeInfo) (m : Message) (close : List Nat)
    (a : Action) (ha : a ∈ fanoutSends rt m close) :
    ∃ i node, i ∈ close ∧ getNodeInfo rt i = some node ∧
      a = Action.sendToDirect { m with destination_id := some i }
            node.node_id node.connection_id := by
  unfold fanoutSends at ha
  obtain ⟨i, hi, hfi⟩ := List.mem_filterMap.mp ha
  cases hni : getNodeInfo rt i with
  | none => rw [hni] at hfi; cases hfi
  | some node =>
    rw [hni] at hfi
    simp only [Option.map_some', Option.some.injEq] at hfi
    exact ⟨i, node, hi, hni, hfi.symm⟩

theorem eraseIdx_append_left (l1 l2 : List α) :
    (l1 ++ l2).eraseIdx l1.length = l1 ++ l2.eraseIdx 0 := by
  induction l1 with
  | nil => rfl
  | cons a as ih => simp [List.eraseIdx, List.length_cons, ih]

theorem cppUnsubscribe_single_match (subs : List NodeInfo) (node_id : Nat)
    (hone : (subs.filter (fun n => !(n.node_id == node_id))).length + 1
      = subs.length) :
    cppUnsubscribe subs node_id =
      some (subs.filter (fun n => !(n.node_id == node_id))) := by
  have hne : subs.isEmpty = false := by
    cases subs with
    | nil => simp at hone
    | cons a as => rfl
  have hkle : (subs.filter (fun n => !(n.node_id == node_id))).length
      ≤ subs.length := List.length_filter_le _ _
  have hdroplen :
      (subs.drop (subs.filter (fun n => !(n.node_id == node_id))).length).length
        = 1 := by
    rw [List.length_drop]
    omega
  obtain ⟨x, hx⟩ := List.length_eq_one.mp hdroplen
  unfold cppUnsubscribe cppEraseAt
  rw [hne]
  simp only [Bool.false_eq_true, if_false]
  rw [if_pos (by rw [List.length_append, hdroplen]; omega)]
  rw [eraseIdx_append_left, hx]
  simp [List.eraseIdx]

/-! ## Claim theorems -/

/-- C9: for a message whose route_history contains no duplicates and has
length at most `H`, after AdjustRouteHistory the route_history still
contains no duplicates, has length at most `H`, and contains this node's
id; if this node's id was already present the route_history (indeed the
whole message) is unchanged; otherwise this node's id is appended and,
when the length then exceeds `H`, the oldest entry is dropped. -/
theorem c9_adjustRouteHistory (p : Params) (selfId : Nat) (m : Message)
    (hH : 1 ≤ p.max_route_history)
    (hnd : m.route_history.Nodup)
    (hlen : m.route_history.length ≤ p.max_route_history) :
    ((adjustRouteHistory p selfId m).route_history.Nodup ∧
      (adjustRouteHistory p selfId m).route_history.length ≤ p.max_route_history ∧
      selfId ∈ (adjustRouteHistory p selfId m).route_history) ∧
    (selfId ∈ m.route_history → adjustRouteHistory p selfId m = m) ∧
    (selfId ∉ m.route_history →
      (adjustRouteHistory p selfId m).route_history =
        if p.max_route_history < m.route_history.length + 1
        then (m.route_history ++ [selfId]).drop 1
        else m.route_history ++ [selfId]) := by
  by_cases hmem : selfId ∈ m.route_history
  · simp only [adjustRouteHistory, if_pos hmem]
    exact ⟨⟨hnd, hlen, hmem⟩, fun _ => trivial, fun h => absurd hmem h⟩
  · have hndapp : (m.route_history ++ [selfId]).Nodup := by
      simp [List.nodup_append, hnd, hmem]
    have hres : (adjustRouteHistory p selfId m).route_history =
        if p.max_route_history < m.route_history.length + 1
        then (m.route_history ++ [selfId]).drop 1
        else m.route_history ++ [selfId] := by
      simp only [adjustRouteHistory, if_neg hmem, List.length_append,
        List.length_singleton]
      by_cases hover : p.max_route_history < m.route_history.length + 1
      · rw [if_pos hover, if_pos hover]
      · rw [if_neg hover, if_neg hover]
    refine ⟨⟨?_, ?_, ?_⟩, fun h => absurd h hmem, fun _ => hres⟩
    · rw [hres]
      by_cases hover : p.max_route_history < m.route_history.length + 1
      · rw [if_pos hover]
        exact List.Nodup.sublist (List.drop_sublist 1 _) hndapp
      · rw [if_neg hover]
        exact hndapp
    · rw [hres]
      by_cases hover : p.max_route_history < m.route_history.length + 1
      · rw [if_pos hover]
        simp only [List.length_drop, List.length_append, List.length_singleton]
        omega
      · rw [if_neg hover]
        simp only [List.length_append, List.length_singleton]
        omega
    · rw [hres]
      by_cases hover : p.max_route_history < m.route_history.length + 1
      · rw [if_pos hover]
        have hpos : 1 ≤ m.route_history.length := by omega
        rw [List.drop_append_of_le_length hpos]
        exact List.mem_append_right _ (List.mem_singleton_self selfId)
      · rw [if_neg hover]
        exact List.mem_append_right _ (List.mem_singleton_self selfId)

/-- C9 witness: at `H = 2`, self id 5 and route history `[1, 2]` the
theorem's hypotheses hold and the adjusted history is `[2, 5]`. -/
theorem c9_witness :
    ((adjustRouteHistory p0 5 msg9).route_history.Nodup ∧
      (adjustRouteHistory p0 5 msg9).route_history.length ≤ p0.max_route_history ∧
      5 ∈ (adjustRouteHistory p0 5 msg9).route_history) ∧
    (5 ∈ msg9.route_history → adjustRouteHistory p0 5 msg9 = msg9) ∧
    (5 ∉ msg9.route_history →
      (adjustRouteHistory p0 5 msg9).route_history =
        if p0.max_route_history < msg9.route_history.length + 1
        then (msg9.route_history ++ [5]).drop 1
        else msg9.route_history ++ [5]) :=
  c9_adjustRouteHistory p0 5 msg9 (by decide) (by decide) (by decide)

/-- C2 counterexample: with self id 1 and route history `[1, 2]`,
RecursiveSendOn excludes exactly `[1]` — it excludes this node's own id
and fails to exclude the other forwarder 2, contradicting the claim that
the exclusion set is the route history minus self. -/
theorem c2_counterexample : ¬ c2ClaimAt 1 [1, 2] := by
  intro h
  exact absurd (List.mem_singleton_self 1) (by simpa [recursiveSendOnExclude] using h.2)

/-- C2 amended: the exclusion list RecursiveSendOn passes to GetClosestNode
is the route history with its last (most recent) entry removed whenever
the history holds more than one entry — regardless of where self occurs;
with exactly one entry, that entry is excluded unless it is self; with no
entries nothing is excluded. -/
theorem c2_amended (selfId : Nat) (rh : List Nat) :
    (1 < rh.length → recursiveSendOnExclude selfId rh = rh.dropLast) ∧
    (∀ x, rh = [x] → x ≠ selfId → recursiveSendOnExclude selfId rh = [x]) ∧
    (rh = [selfId] → recursiveSendOnExclude selfId rh = []) ∧
    (rh = [] → recursiveSendOnExclude selfId rh = []) := by
  refine ⟨fun h => by simp [recursiveSendOnExclude, if_pos h], ?_, ?_, ?_⟩
  · rintro x rfl hx
    simp [recursiveSendOnExclude, hx]
  · rintro rfl
    simp [recursiveSendOnExclude]
  · rintro rfl
    simp [recursiveSendOnExclude]

/-- C2 amended witness: at self id 1 and route history `[1, 2]` the
exclusion list is `[1, 2]` minus its last entry. -/
theorem c2_witness : recursiveSendOnExclude 1 [1, 2] = [1, 2].dropLast :=
  (c2_amended 1 [1, 2]).1 (by decide)

/-- C5: for a direct message handled as-closest where this node is
strictly closest to the destination: if the destination is connected in
the routing table or the non-routing table the message is forwarded; if
not connected and not yet visited, the message is forwarded exactly once
more with visited set to true; if not connected and already visited, the
message is dropped with no send. -/
theorem c5_direct_as_closest (env : RtEnv) (msg : Message) (d : Nat)
    (hd : msg.destination_id = some d)
    (hclosest : env.closestTo d false = true) :
    ((isConnected env.rt d || isConnected env.nrt d) = true →
      handleDirectMessageAsClosestNode env msg = [Action.sendToClosest msg]) ∧
    ((isConnected env.rt d || isConnected env.nrt d) = false →
      msg.visited ≠ some true →
      handleDirectMessageAsClosestNode env msg =
        [Action.sendToClosest { msg with visited := some true }]) ∧
    ((isConnected env.rt d || isConnected env.nrt d) = false →
      msg.visited = some true →
      handleDirectMessageAsClosestNode env msg = []) := by
  refine ⟨fun hconn => ?_, fun hconn hvis => ?_, fun hconn hvis => ?_⟩
  · simp [handleDirectMessageAsClosestNode, hd, hclosest, hconn]
  · have hv : (msg.visited == some true) = false := by
      cases hvm : msg.visited with
      | none => rfl
      | some b => cases b with
        | false => rfl
        | true => exact absurd hvm hvis
    simp only [Bool.or_eq_false_iff] at hconn
    simp [handleDirectMessageAsClosestNode, hd, hclosest, hconn.1, hconn.2, hv]
  · simp only [Bool.or_eq_false_iff] at hconn
    simp [handleDirectMessageAsClosestNode, hd, hclosest, hconn.1, hconn.2, hvis]

/-- C5 witness: in `env5` the destination 2 is connected in the routing
table, so the direct as-closest handler forwards the message unchanged. -/
theorem c5_witness :
    handleDirectMessageAsClosestNode env5 msg5 = [Action.sendToClosest msg5] :=
  (c5_direct_as_closest env5 msg5 2 rfl rfl).1 (by decide)

/-- C4: for a request delivered to the application at this node that
carries an id, invoking the reply capability with a non-empty reply
synthesizes a response whose destination is the original source, whose
source is this node, whose id is the original id, whose request flag is
false and whose hops_to_live is reset to the protocol constant. -/
theorem c4_reply_roundtrip (selfId : Nat) (p : Params) (msg : Message)
    (reply : String) (i : Nat)
    (hreq : msg.request = true)
    (hdest : msg.destination_id = some selfId)
    (hid : msg.id = some i)
    (hrep : reply ≠ "") :
    ∃ out, buildReply selfId p msg reply = some out ∧
      out.destination_id = msg.source_id ∧
      out.source_id = some selfId ∧
      out.id = some i ∧
      out.request = false ∧
      out.hops_to_live = p.hops_to_live := by
  simp only [buildReply, if_neg hrep]
  exact ⟨_, rfl, rfl, rfl, hid, rfl, rfl⟩

/-- C4 witness: replying "ok" to the request `msg4` (id 42, source 7,
destination = self id 1) yields a response with the fields inverted. -/
theorem c4_witness :
    ∃ out, buildReply 1 p0 msg4 "ok" = some out ∧
      out.destination_id = msg4.source_id ∧
      out.source_id = some 1 ∧
      out.id = some 42 ∧
      out.request = false ∧
      out.hops_to_live = p0.hops_to_live :=
  c4_reply_roundtrip 1 p0 msg4 "ok" 42 rfl rfl rfl (by decide)

/-- C6 counterexample: `msg6` is a response bearing relay id 7 and
destination id 5; with an empty routing table and an empty non-routing
table SendToClosestNode drops it ("no endpoint to send to") instead of
rewriting the destination to the relay id, refuting the claim. -/
theorem c6_counterexample : ¬ c6ClaimAt [] [] msg6 := by
  intro h
  exact h (Or.inl rfl) rfl rfl (by decide) (by decide)

/-- C6 amended: a message carrying a destination id that matches no
non-routing-table client (under the direct rule) is, when the routing
table is empty, always logged and dropped — its relay fields are never
consulted; the relay rewrite applies only to messages carrying no
destination id: such a response bearing a relay id has a copy sent
directly to the relay id with the destination overwritten, and any other
destination-less message is dropped. -/
theorem c6_amended (rt nrt : List NodeInfo) (msg : Message) :
    (∀ d, msg.destination_id = some d →
      (nrtGetNodesInfo nrt d = [] ∨ msg.direct = false) → rt = [] →
      sendToClosestNode rt nrt msg = SendOutcome.dropNoEndpoint) ∧
    (msg.destination_id = none → msg.request = false → ∀ r, msg.relay_id = some r →
      sendToClosestNode rt nrt msg =
        SendOutcome.relayDirect { msg with destination_id := some r } r) ∧
    (msg.destination_id = none → (msg.relay_id = none ∨ msg.request = true) →
      sendToClosestNode rt nrt msg = SendOutcome.dropNoRelay) := by
  refine ⟨fun d hd hno hrt => ?_, fun hd hreq r hr => ?_, fun hd hor => ?_⟩
  · subst hrt
    rcases hno with hempty | hndir
    · simp [sendToClosestNode, hd, hempty]
    · simp [sendToClosestNode, hd, hndir]
  · simp [sendToClosestNode, hd, hr, hreq]
  · rcases hor with hnone | hreq
    · simp [sendToClosestNode, hd, hnone]
    · cases hr : msg.relay_id with
      | none => simp [sendToClosestNode, hd, hr]
      | some r => simp [sendToClosestNode, hd, hr, hreq]

/-- C6 amended witness: the concrete response `msg6` (destination 5, relay
7) is dropped when both tables are empty, while its destination-less twin
`msg6b` is re-sent straight to the relay id 7. -/
theorem c6_witness :
    sendToClosestNode [] [] msg6 = SendOutcome.dropNoEndpoint ∧
    sendToClosestNode [] [] msg6b =
      SendOutcome.relayDirect { msg6b with destination_id := some 7 } 7 :=
  ⟨(c6_amended [] [] msg6).1 5 rfl (Or.inl rfl) rfl,
   (c6_amended [] [] msg6b).2.1 rfl rfl 7 rfl⟩

/-- C3: HandleMessage first checks validity — an invalid message or one
whose hops_to_live is 0 is dropped with no classification, no dispatch
and no send; otherwise hops_to_live is decremented by exactly one before
any classification guard runs: every guard examines the message with
hops_to_live lowered by one and all other fields unchanged. -/
theorem c3_validate_then_decrement (env : RtEnv) (p : Params)
    (wireValid : Bool) (m : Message) :
    ((wireValid = false ∨ m.hops_to_live = 0) →
      handleMessage env p wireValid m = HMResult.dropInvalid) ∧
    (wireValid = true → m.hops_to_live ≠ 0 →
      ∃ s b, handleMessage env p wireValid m =
        HMResult.classified s b { m with hops_to_live := m.hops_to_live - 1 }) := by
  constructor
  · intro h
    have hv : validateMessage wireValid m = false := by
      rcases h with h | h <;> simp [validateMessage, h]
    simp [handleMessage, hv]
  · intro hw hh
    have hv : validateMessage wireValid m = true := by
      simp [validateMessage, hw, hh]
    simp only [handleMessage, hv, if_true]
    by_cases hc : (!env.clientMode &&
        isCacheableRequest env p { m with hops_to_live := m.hops_to_live - 1 }) = true
    · exact ⟨false, Branch.cacheLookup, by simp [hc]⟩
    · simp only [Bool.not_eq_true] at hc
      refine ⟨!env.clientMode &&
          isCacheableResponse env p { m with hops_to_live := m.hops_to_live - 1 },
        classifyRest env p { m with hops_to_live := m.hops_to_live - 1 }, ?_⟩
      simp [hc]

/-- C3 witness: the ordinary message `msg3` (hops_to_live 5) is classified
with hops_to_live 4, and the same message with hops_to_live 0 is dropped
before any guard runs. -/
theorem c3_witness :
    handleMessage env5 p0 true { msg3 with hops_to_live := 0 } =
      HMResult.dropInvalid ∧
    ∃ s b, handleMessage env5 p0 true msg3 =
      HMResult.classified s b { msg3 with hops_to_live := msg3.hops_to_live - 1 } :=
  ⟨(c3_validate_then_decrement env5 p0 true
      { msg3 with hops_to_live := 0 }).1 (Or.inr rfl),
   (c3_validate_then_decrement env5 p0 true msg3).2 rfl (by decide)⟩

/-- C10: evaluating GroupChangeHandler::Unsubscribe at the failing input —
a non-empty subscribers list containing no entry matching the id — shows
the one-iterator `erase(remove_if(...))` call landing on the end iterator
(undefined behaviour, modelled as `none`): the operation does not leave
the list unchanged without fault as the claim states.  For contrast, the
accompanying conjunct shows the list is genuinely non-empty and
match-free. -/
theorem c10_unsubscribe_out_of_bounds :
    subsC10 ≠ [] ∧
    subsC10.filter (fun n => !(n.node_id == 2)) = subsC10 ∧
    cppUnsubscribe subsC10 2 = none := by
  refine ⟨by decide, by decide, ?_⟩
  decide

/-- C8: evaluating GroupChangeHandler::ClosestNodesUpdate at a payload
with an empty close-nodes list (reporting peer 2, which is connected):
instead of ignoring the update, the handler reaches UpdateGroupChange with
the empty list and the group-matrix row of peer 2 is overwritten to
empty — the matrix *is* modified, contradicting the claim (in a debug
build the `assert(!closest_nodes.empty())` aborts first). -/
theorem c8_empty_update_applied :
    closestNodesUpdate 1 (some 1) ⟨2, []⟩ =
      CNUResult.updateGroupChange 2 [] ∧
    gmAfterClosestNodesUpdate 1 [⟨2, 20, 0⟩] [(2, [⟨3, 30, 0⟩])]
        (some 1) ⟨2, []⟩ = [(2, [])] ∧
    [(2, ([] : List NodeInfo))] ≠ [(2, [⟨3, 30, 0⟩])] := by
  refine ⟨by decide, by decide, by decide⟩

/-- C7 counterexample: with `C = 2` and a routing table holding only peer
5, a subscribe request from peer 5 — a peer present in the routing
table — is ignored by the early return (`GetClosestNodeInfo` yields fewer
than `closest_nodes_size` nodes): the peer is not added and no initial
ClosestNodesUpdate is sent, refuting the claim. -/
theorem c7_counterexample : ¬ c7ClaimAt p7 rt7 0 [] 5 := by
  intro h
  have := h ⟨⟨5, 50, 0⟩, by decide, rfl⟩
  exact absurd this.2 (by decide)

/-- C7 amended: provided the routing table yields a full set of
`closest_nodes_size` closest nodes (`C ≤ |RT|`) — otherwise Subscribe
returns early doing nothing — a subscribe request from a peer present in
the routing table adds the peer to the Subscribers list iff it is not
already present (the list stays duplicate-free), and sends the requester
exactly one initial ClosestNodesUpdate carrying closest(RT, C); an
unsubscribe request from a peer with exactly one matching entry in the
Subscribers list removes exactly that entry. -/
theorem c7_amended (p : Params) (rt : List NodeInfo) (selfId : Nat)
    (subs : List NodeInfo) (node_id : Nat) (ni : NodeInfo)
    (subs2 : List NodeInfo)
    (hC : p.closest_nodes_size ≤ rt.length)
    (hfind : getNodeInfo rt node_id = some ni)
    (hnd : (subs.map NodeInfo.node_id).Nodup)
    (hone : (subs2.filter (fun n => !(n.node_id == node_id))).length + 1
      = subs2.length) :
    ((subscribe p rt selfId subs node_id).subscribers =
        if subs.any (fun n => n.node_id == node_id) then subs
        else subs ++ [ni]) ∧
    ((subscribe p rt selfId subs node_id).subscribers.map NodeInfo.node_id).Nodup ∧
    (subscribe p rt selfId subs node_id).sentUpdate =
      some (ni.node_id, ni.connection_id,
        getClosestNodeInfo rt selfId p.closest_nodes_size) ∧
    cppUnsubscribe subs2 node_id =
      some (subs2.filter (fun n => !(n.node_id == node_id))) := by
  have hlen : (getClosestNodeInfo rt selfId p.closest_nodes_size).length
      = p.closest_nodes_size := by
    unfold getClosestNodeInfo sortByDist
    rw [List.length_take, List.length_insertionSort]
    omega
  have hni : ni.node_id = node_id := by
    have h1 : rt.find? (fun n => n.node_id == node_id) = some ni := by
      simpa [getNodeInfo] using hfind
    have h2 := List.find?_some h1
    simpa using h2
  have hsub : subscribe p rt selfId subs node_id =
      ⟨if subs.any (fun n => n.node_id == node_id) then subs else subs ++ [ni],
        some (ni.node_id, ni.connection_id,
          getClosestNodeInfo rt selfId p.closest_nodes_size)⟩ := by
    unfold subscribe
    simp only [hlen, lt_irrefl, if_false, hfind]
  refine ⟨by rw [hsub], ?_, by rw [hsub], cppUnsubscribe_single_match subs2 node_id hone⟩
  rw [hsub]
  cases hany : subs.any (fun n => n.node_id == node_id) with
  | true => simpa using hnd
  | false =>
    have hmem : ni.node_id ∉ subs.map NodeInfo.node_id := by
      rw [hni]
      intro hcontra
      obtain ⟨x, hxmem, hxe⟩ := List.mem_map.mp hcontra
      have hfalse := List.any_eq_false.mp hany x hxmem
      simp [hxe] at hfalse
    simp [List.nodup_append, hnd, hmem]

/-- C7 amended witness: with `C = 1`, routing table `[peer 5]`, empty
Subscribers list: subscribing peer 5 appends it and sends it one initial
update; unsubscribing peer 5 from the list `[peer 5]` removes it. -/
theorem c7_witness :
    (subscribe p7w rt7 0 [] 5).subscribers = [⟨5, 50, 0⟩] ∧
    (subscribe p7w rt7 0 [] 5).sentUpdate =
      some (5, 50, getClosestNodeInfo rt7 0 p7w.closest_nodes_size) ∧
    cppUnsubscribe rt7 5 = some [] := by
  have h := c7_amended p7w rt7 0 [] 5 ⟨5, 50, 0⟩ rt7
    (by decide) (by decide) (by decide) (by decide)
  refine ⟨by simpa using h.1, by simpa using h.2.2.1, by simpa using h.2.2.2⟩

/-- C1: for a group (non-direct) message for which this node is the group
leader, with replication `k`, `1 ≤ k ≤ G`, at least `k - 1` routing-table
peers, and no routing-table peer whose id equals the destination (and the
visited re-forward branch not applicable): the handler performs exactly
`k - 1` SendToDirect calls, one per entry of the `k - 1` closest peers to
the destination, each send carrying the message with its destination
rewritten to that peer's id and direct set true, and afterwards restores
the destination to this node's id and dispatches the message locally.
When `k < 1` or `k > G` the message is dropped with no send and no local
dispatch. -/
theorem c1_group_fanout (env : RtEnv) (p : Params) (msg : Message) (d : Nat)
    (hdest : msg.destination_id = some d)
    (hdir : msg.direct = false)
    (hconn : isConnected env.rt d = false)
    (hclosest : env.closestTo d true = true)
    (hvis : msg.visited = some false →
      env.rt.length ≤ p.closest_nodes_size ∨ env.inRange d p.closest_nodes_size = true)
    (hleader : env.groupLeader d = none) :
    ((1 ≤ msg.replication ∧ msg.replication ≤ p.node_group_size ∧
        msg.replication - 1 ≤ env.rt.length) →
      handleGroupMessageAsClosestNode env p msg =
          fanoutSends env.rt { msg with direct := true }
              (getClosestNodes env.rt d (msg.replication - 1)) ++
            [Action.localDispatch
               { msg with direct := true, destination_id := some env.selfId }] ∧
        (getClosestNodes env.rt d (msg.replication - 1)).length
            = msg.replication - 1 ∧
        (fanoutSends env.rt { msg with direct := true }
            (getClosestNodes env.rt d (msg.replication - 1))).length
            = msg.replication - 1 ∧
        (∀ a ∈ fanoutSends env.rt { msg with direct := true }
            (getClosestNodes env.rt d (msg.replication - 1)),
          ∃ i node, i ∈ getClosestNodes env.rt d (msg.replication - 1) ∧
            getNodeInfo env.rt i = some node ∧
            a = Action.sendToDirect
                  { msg with direct := true, destination_id := some i }
                  node.node_id node.connection_id)) ∧
    ((msg.replication = 0 ∨ p.node_group_size < msg.replication) →
      handleGroupMessageAsClosestNode env p msg = []) := by
  have hct : env.closestTo d (!msg.direct) = true := by
    rw [hdir]
    exact hclosest
  have hcond2 : (msg.visited == some false
      && decide (p.closest_nodes_size < env.rt.length)
      && !(env.inRange d p.closest_nodes_size)) = false := by
    cases hv : msg.visited == some false with
    | false => simp
    | true =>
      rcases hvis (eq_of_beq hv) with hle | hin
      · have : decide (p.closest_nodes_size < env.rt.length) = false :=
          decide_eq_false (by omega)
        simp [this]
      · simp [hin]
  have hbody : ∀ c : Bool, (msg.replication < 1 || p.node_group_size
      < msg.replication) = c →
      handleGroupMessageAsClosestNode env p msg =
        if c then []
        else fanoutSends env.rt { msg with direct := true }
            (getClosestNodes env.rt d (msg.replication - 1)) ++
          [Action.localDispatch
             { msg with direct := true, destination_id := some env.selfId }] := by
    intro c hc
    unfold handleGroupMessageAsClosestNode
    rw [hdest]
    simp only [Option.getD_some, hconn, hct, Bool.not_true, Bool.false_and,
      Bool.not_false, Bool.and_true, hcond2, Bool.false_eq_true, if_false,
      hleader, hc, Nat.add_zero]
  constructor
  · rintro ⟨h1, h2, h3⟩
    have hrepl : (msg.replication < 1 || p.node_group_size < msg.replication)
        = false := by
      simp only [Bool.or_eq_false_iff, decide_eq_false_iff_not]
      omega
    have heval := hbody false hrepl
    rw [if_neg (by simp)] at heval
    have hlen1 : (getClosestNodes env.rt d (msg.replication - 1)).length
        = msg.replication - 1 := length_getClosestNodes _ _ _ h3
    have hsome : ∀ i ∈ getClosestNodes env.rt d (msg.replication - 1),
        (getNodeInfo env.rt i).isSome := fun i hi =>
      getNodeInfo_isSome_of_mem _ _ (mem_getClosestNodes _ _ _ _ hi)
    exact ⟨heval, hlen1,
      by rw [fanoutSends_length _ _ _ hsome, hlen1],
      fun a ha => fanoutSends_mem _ _ _ a ha⟩
  · intro h0
    have hrepl : (msg.replication < 1 || p.node_group_size < msg.replication)
        = true := by
      rcases h0 with h | h
      · simp [h]
      · simp [h]
    have heval := hbody true hrepl
    rwa [if_pos rfl] at heval

/-- C1 witness: in the 5-peer environment `env1` with `G = 4`, the group
message `msg1` (destination 7, replication 4) triggers the fan-out: the
handler's trace is the three direct sends to the three peers closest to 7
followed by the local dispatch, and the chosen close list has length 3. -/
theorem c1_witness :
    handleGroupMessageAsClosestNode env1 p0 msg1 =
      fanoutSends env1.rt { msg1 with direct := true }
          (getClosestNodes env1.rt 7 (msg1.replication - 1)) ++
        [Action.localDispatch
           { msg1 with direct := true, destination_id := some env1.selfId }] ∧
    (getClosestNodes env1.rt 7 (msg1.replication - 1)).length
      = msg1.replication - 1 := by
  have h := (c1_group_fanout env1 p0 msg1 7 rfl rfl (by decide) rfl
    (by decide) rfl).1 (by decide)
  exact ⟨h.1, h.2.1⟩

end MaidSafeRouting
